import Mathlib

/-!
Verification of the SelfTrainService ML service (SIHProjectio/ML-service).

Shallow embedding of `src/SelfTrainService/{config, trainer, hybrid_scheduler,
feature_extractor, data_store}.py`.  Numbers are modelled as rationals (the
Python code uses floats; every claim settled here is about exact structure,
ordering, clamping and branching, not about rounding).  Opaque library calls
(sklearn model construction and fitting, numpy standard deviation, datetime
parsing) are passed in as explicit function parameters, so every theorem
quantifies over them.
-/

namespace SelfTrain

/-! ## Configuration (`config.py`) -/

/-- The default feature list set in `TrainingConfig.__post_init__`. -/
def defaultFeatures : List String :=
  [ "num_trains", "num_available", "avg_readiness_score", "total_mileage",
    "mileage_variance", "maintenance_count", "certificate_expiry_count",
    "branding_priority_sum", "time_of_day", "day_of_week" ]

/-- The default model-type list set in `TrainingConfig.__post_init__`. -/
def defaultModelTypes : List String :=
  [ "gradient_boosting", "random_forest", "xgboost", "lightgbm", "catboost" ]

/-- `TrainingConfig` (the fields the verified components read). -/
structure TrainCfg where
  RETRAIN_INTERVAL_HOURS : ℚ := 48
  MIN_SCHEDULES_FOR_TRAINING : ℕ := 100
  MIN_SCHEDULES_FOR_RETRAIN : ℕ := 50
  USE_ENSEMBLE : Bool := true
  MODEL_TYPES : List String := defaultModelTypes
  FEATURES : List String := defaultFeatures
  USE_HYBRID : Bool := true
  ML_CONFIDENCE_THRESHOLD : ℚ := 3/4
  deriving Repr

/-- The global `CONFIG = TrainingConfig()` instance. -/
def CONFIG : TrainCfg := {}

/-! ## Trainer state and `should_retrain` (`trainer.py`) -/

/-- The mutable fields of `ModelTrainer`.  `μ` is the type of a fitted model
(in `predict` it is instantiated with a prediction function `List ℚ → ℚ`;
the pickled sklearn object itself is opaque).  Time stamps are rationals:
`last_trained` holds the value of `datetime.now()` at the end of a
successful `train`, measured in seconds (so `total_seconds` of a difference
is plain subtraction). -/
structure TrainerState (μ : Type) where
  models : List (String × μ)
  model_scores : List (String × ℚ)
  /-- `none` models numerically undefined weights (the float code divides by
  a zero total score, producing NaN/inf entries, which ℚ cannot carry). -/
  ensemble_weights : Option (List (String × ℚ))
  best_model_name : Option String
  last_trained : Option ℚ
  training_history : List (List String)

/-- `ModelTrainer.should_retrain`, lines 84–101 of `trainer.py`.
`now` and `last_trained` are in seconds; `newSince` is the length of
`data_store.get_schedules_since(self.last_trained)`. -/
def should_retrain (cfg : TrainCfg) (lastTrained : Option ℚ) (now : ℚ)
    (newSince : ℕ) : Bool :=
  match lastTrained with
  | none => true
  | some t =>
      if (now - t) / 3600 ≥ cfg.RETRAIN_INTERVAL_HOURS then
        decide (newSince ≥ cfg.MIN_SCHEDULES_FOR_RETRAIN)
      else
        false

/-! ## Training (`ModelTrainer.train`, lines 103–211) -/

/-- Lines 171–179: ensemble weights proportional to each model's validation
score.  Returns `none` when the float code would divide by a zero total
score (producing NaN/inf weights, which ℚ cannot represent); every other
outcome is `some` of the exact weight list. -/
def computeEnsembleWeights (useEnsemble : Bool) (scores : List (String × ℚ)) :
    Option (List (String × ℚ)) :=
  if useEnsemble && decide (1 < scores.length) then
    let total := (scores.map Prod.snd).sum
    if total = 0 then none
    else some (scores.map (fun p => (p.1, p.2 / total)))
  else some []

/-- The dictionary returned by `ModelTrainer.train` (the fields the claims
are about; per-model metrics are carried by the score list). -/
inductive TrainResult where
  /-- `{"success": False, "reason": "Retraining not needed yet"}` -/
  | notNeeded
  /-- `{"success": False, "reason": "Not enough data. Need …, have …"}` -/
  | insufficientData (needed got : ℕ)
  /-- `{"success": False, "error": "No valid features extracted"}` -/
  | noValidFeatures
  /-- `{"success": True, "models_trained": …, "best_model": …,
  "ensemble_weights": …}` -/
  | trained (modelsTrained : List String) (best : Option String)
      (weights : Option (List (String × ℚ)))
  deriving Repr, DecidableEq

/-- The `success` field of the returned dictionary. -/
def TrainResult.success : TrainResult → Bool
  | .trained _ _ _ => true
  | _ => false

/-- Lines 140–169: the per-model loop.  `getModel` is `_get_model` (returns
`none` for an unavailable/unknown variant, which the loop skips);
`fitEval` bundles `model.fit` plus the r² evaluation, returning the fitted
model and its `test_r2` score, or `.error` when `fit` raises — the loop has
no try/except, so an exception propagates out of `train` (the partially
filled `self.models` the Python leaves behind in that case is dropped here;
no claim reads state after an uncaught exception). -/
def trainLoop {μ ε : Type} (types : List String) (getModel : String → Option μ)
    (fitEval : String → μ → Except ε (μ × ℚ)) :
    Except ε (List (String × μ) × List (String × ℚ)) :=
  match types with
  | [] => .ok ([], [])
  | name :: rest =>
      match getModel name with
      | none => trainLoop rest getModel fitEval
      | some m =>
          match fitEval name m with
          | .error e => .error e
          | .ok (fitted, score) =>
              match trainLoop rest getModel fitEval with
              | .error e => .error e
              | .ok (ms, ss) => .ok ((name, fitted) :: ms, (name, score) :: ss)

/-- Line 183: `max(self.model_scores.items(), key=lambda x: x[1])[0]` —
Python's `max` keeps the first maximal item. -/
def argmaxScore : List (String × ℚ) → Option String
  | [] => none
  | p :: rest =>
      some ((rest.foldl (fun acc q => if q.2 > acc.2 then q else acc) p).1)

/-- `ModelTrainer.train` (lines 103–211).  `numSchedules` is
`len(self.data_store.load_schedules())`, `newSince` the count backing
`should_retrain`, `numPrepared` the row count `len(X)` of the prepared
dataset (`prepare_dataset` and `train_test_split` are opaque here — only
the emptiness check on `X` branches).  The training history entry is
modelled by its `models_trained` list. -/
def train {μ ε : Type} (cfg : TrainCfg) (getModel : String → Option μ)
    (fitEval : String → μ → Except ε (μ × ℚ))
    (st : TrainerState μ) (force : Bool) (now : ℚ)
    (numSchedules newSince numPrepared : ℕ) :
    Except ε (TrainResult × TrainerState μ) :=
  if !force && !(should_retrain cfg st.last_trained now newSince) then
    .ok (.notNeeded, st)
  else if numSchedules < cfg.MIN_SCHEDULES_FOR_TRAINING then
    .ok (.insufficientData cfg.MIN_SCHEDULES_FOR_TRAINING numSchedules, st)
  else if numPrepared = 0 then
    .ok (.noValidFeatures, st)
  else
    match trainLoop cfg.MODEL_TYPES getModel fitEval with
    | .error e => .error e
    | .ok (models, scores) =>
        let weights := computeEnsembleWeights cfg.USE_ENSEMBLE scores
        let best := match argmaxScore scores with
          | some b => some b
          | none => st.best_model_name
        let names := models.map Prod.fst
        .ok (.trained names best weights,
          { models := models, model_scores := scores,
            ensemble_weights := weights, best_model_name := best,
            last_trained := some now,
            training_history := st.training_history ++ [names] })

/-! ## Prediction (`ModelTrainer.predict`, lines 213–250) -/

/-- Line 222–224: `[features.get(f, 0.0) for f in CONFIG.FEATURES]`. -/
def featureVector (FEATURES : List String) (features : List (String × ℚ)) :
    List ℚ :=
  FEATURES.map (fun f => (features.lookup f).getD 0)

/-- `ModelTrainer.predict`.  A fitted model is its prediction function
`List ℚ → ℚ`; `stdDev` stands for `np.std` (its value is irrelevant to
every property proved here, which is why it may be abstract); `weights` is
the ensemble-weight dictionary after loading (the predict paths below are
only about numerically defined weights).  The initial `load_model` fallback
is outside this function: `models` is the dictionary after it ran. -/
def predict (cfg : TrainCfg) (useEnsembleArg : Bool)
    (models : List (String × (List ℚ → ℚ)))
    (weights : List (String × ℚ)) (best : Option String)
    (stdDev : List ℚ → ℚ) (features : List (String × ℚ)) : ℚ × ℚ :=
  match models with
  | [] => (0, 0)
  | m0 :: _ =>
      let fv := featureVector cfg.FEATURES features
      if useEnsembleArg && cfg.USE_ENSEMBLE && !weights.isEmpty then
        let prediction := weights.foldl
          (fun acc p => match models.lookup p.1 with
            | some m => acc + p.2 * m fv
            | none => acc) 0
        let preds := models.map (fun p => p.2 fv)
        (prediction, max (1/2) (min 1 (1 - stdDev preds / 50)))
      else
        let bm := (best.bind (fun b => models.lookup b)).getD m0.2
        let prediction := bm fv
        (prediction, min 1 (4/5 + prediction / 100 * (1/5)))

/-! ## Hybrid router (`hybrid_scheduler.py`) -/

/-- The four reason strings `_get_reason` can produce, in structured form
(the `:.2f`-formatted confidence and the threshold are carried as the
rational values interpolated into the f-strings). -/
inductive Reason where
  /-- `"ML model not available, using optimization"` -/
  | mlNotAvailable
  /-- `"Hybrid mode disabled, using optimization"` -/
  | hybridDisabled
  /-- `"ML confidence (…) above threshold (…)"` -/
  | aboveThreshold (confidence threshold : ℚ)
  /-- `"ML confidence (…) below threshold (…), using optimization"` -/
  | belowThreshold (confidence threshold : ℚ)
  deriving Repr, DecidableEq

/-- `HybridScheduler._get_reason` (lines 60–71). -/
def get_reason (cfg : TrainCfg) (useMl mlAvailable : Bool)
    (confidence : ℚ) : Reason :=
  if !mlAvailable then .mlNotAvailable
  else if !cfg.USE_HYBRID then .hybridDisabled
  else if useMl then .aboveThreshold confidence cfg.ML_CONFIDENCE_THRESHOLD
  else .belowThreshold confidence cfg.ML_CONFIDENCE_THRESHOLD

/-- `HybridScheduler.should_use_ml` (lines 19–31). -/
def should_use_ml (cfg : TrainCfg)
    (models : List (String × (List ℚ → ℚ)))
    (weights : List (String × ℚ)) (best : Option String)
    (stdDev : List ℚ → ℚ) (features : List (String × ℚ)) : Bool × ℚ :=
  if !cfg.USE_HYBRID then (false, 0)
  else if models.isEmpty then (false, 0)
  else
    let conf := (predict cfg true models weights best stdDev features).2
    (decide (conf ≥ cfg.ML_CONFIDENCE_THRESHOLD), conf)

/-- A schedule request: the router reads only `num_trains` (absent ↦ 25);
`rest` stands for every other key of the request dictionary. -/
structure ScheduleRequest (ρ : Type) where
  num_trains : Option ℚ
  rest : ρ

/-- Lines 40–45: the features the router builds from the request and the
wall clock (`hour` = `datetime.now().hour`, `day` =
`datetime.now().weekday()`). -/
def buildFeatures {ρ : Type} (req : ScheduleRequest ρ) (hour day : ℚ) :
    List (String × ℚ) :=
  [("num_trains", req.num_trains.getD 25),
   ("time_of_day", hour),
   ("day_of_week", day)]

/-- The recommendation dictionary (lines 50–56). -/
structure Recommendation where
  use_ml : Bool
  confidence : ℚ
  threshold : ℚ
  method : String
  reason : Reason
  deriving Repr, DecidableEq

/-- `HybridScheduler.get_schedule_recommendation` (lines 33–58). -/
def get_schedule_recommendation {ρ : Type} (cfg : TrainCfg)
    (models : List (String × (List ℚ → ℚ)))
    (weights : List (String × ℚ)) (best : Option String)
    (stdDev : List ℚ → ℚ) (req : ScheduleRequest ρ) (mlAvailable : Bool)
    (hour day : ℚ) : Recommendation :=
  let features := buildFeatures req hour day
  let r := should_use_ml cfg models weights best stdDev features
  { use_ml := r.1 && mlAvailable,
    confidence := r.2,
    threshold := cfg.ML_CONFIDENCE_THRESHOLD,
    method := if r.1 && mlAvailable then "ml" else "optimization",
    reason := get_reason cfg r.1 mlAvailable r.2 }

/-! ## Model persistence (`ModelTrainer.load_model`, lines 279–297) -/

/-- The pickled `model_data` dictionary written by `save_model`
(lines 261–271): models, weights, best name, timestamp, and the
`config` sub-dictionary's feature list. -/
structure ModelBlob (μ : Type) where
  models : List (String × μ)
  ensemble_weights : Option (List (String × ℚ))
  best_model_name : Option String
  last_trained : Option ℚ
  features : List String

/-- `ModelTrainer.load_model`.  `blob = none` models a missing
`models_latest.pkl` or an unpickling exception — both return `False` and
leave the state untouched; a readable blob is installed unconditionally. -/
def load_model {μ : Type} (blob : Option (ModelBlob μ))
    (st : TrainerState μ) : Bool × TrainerState μ :=
  match blob with
  | none => (false, st)
  | some b =>
      (true,
        { st with
          models := b.models,
          ensemble_weights := b.ensemble_weights,
          best_model_name := b.best_model_name,
          last_trained := b.last_trained })

/-! ## Feature extraction (`feature_extractor.py`) -/

/-- A value of the `fitness_certificates` dictionary: the code checks
`isinstance(cert_data, dict)` and otherwise ignores the entry. -/
inductive CertVal where
  | dict (status : Option String)
  | nonDict
  deriving Repr, DecidableEq

/-- The `branding` field: the code checks `isinstance(branding, dict)` and
otherwise contributes nothing.  A record without the key gets the default
`{}`, i.e. `.dict none`. -/
inductive BrandVal where
  | dict (exposure_priority : Option String)
  | nonDict
  deriving Repr, DecidableEq

/-- One trainset record as read by `extract_from_schedule`; `none` fields
model missing dictionary keys (the `.get` defaults are applied inside the
extractor, as in the code).  A missing `fitness_certificates` key is the
default `{}`, i.e. `[]`. -/
structure TrainRec where
  status : Option String
  readiness_score : Option ℚ
  cumulative_km : Option ℚ
  fitness_certificates : List (String × CertVal)
  branding : BrandVal
  deriving Repr, DecidableEq

/-- A schedule record (the fields the extractor reads). -/
structure Schedule where
  trainsets : List TrainRec
  generated_at : Option String
  deriving Repr, DecidableEq

/-- `np.min` over a non-empty list (callers guard emptiness). -/
def listMin : List ℚ → ℚ
  | [] => 0
  | x :: xs => xs.foldl min x

/-- `np.mean`. -/
def mean (l : List ℚ) : ℚ := l.sum / l.length

/-- `np.var` (population variance). -/
def popVar (l : List ℚ) : ℚ :=
  (l.map (fun x => (x - mean l) ^ 2)).sum / l.length

/-- Line 66: `priority_map.get(priority, 0)`. -/
def priorityMap (p : String) : ℚ :=
  (([("CRITICAL", (4 : ℚ)), ("HIGH", 3), ("MEDIUM", 2), ("LOW", 1),
    ("NONE", 0)]).lookup p).getD 0

/-- Lines 58–61: a certificate entry counts as an issue when it is a dict
whose status (default `"VALID"`) is `"EXPIRED"` or `"EXPIRING_SOON"`. -/
def certIsIssue (c : CertVal) : Bool :=
  match c with
  | .dict st =>
      (st.getD "VALID") == "EXPIRED" || (st.getD "VALID") == "EXPIRING_SOON"
  | .nonDict => false

/-- `FeatureExtractor.extract_from_schedule` (lines 14–85), returning the
feature dictionary in its insertion order.  `parse` is
`datetime.fromisoformat` composed with `(hour, weekday)` — `none` models a
parse exception, handled by the `except` branch (hour 12, weekday 0). -/
def extract_from_schedule (parse : String → Option (ℕ × ℕ)) (s : Schedule) :
    List (String × ℚ) :=
  let ts := s.trainsets
  let countStatus := fun (v : String) =>
    ((ts.filter (fun t => (t.status.getD "UNKNOWN") == v)).length : ℚ)
  let readiness := ts.map (fun t => t.readiness_score.getD 0)
  let mileages := ts.map (fun t => t.cumulative_km.getD 0)
  let certIssues : ℚ :=
    (((ts.map (fun t =>
      (t.fitness_certificates.filter (fun c => certIsIssue c.2)).length)).sum
        : ℕ) : ℚ)
  let brandingScore : ℚ := (ts.map (fun t =>
      match t.branding with
      | .dict p => priorityMap (p.getD "NONE")
      | .nonDict => 0)).sum
  let time := (parse ((s.generated_at.getD "").replace "+05:30" "")).getD
    (12, 0)
  [("num_trains", (ts.length : ℚ)),
   ("num_available", countStatus "REVENUE_SERVICE" + countStatus "STANDBY"),
   ("maintenance_count", countStatus "MAINTENANCE"),
   ("avg_readiness_score", if readiness.isEmpty then 0 else mean readiness),
   ("min_readiness_score", if readiness.isEmpty then 0
     else listMin readiness),
   ("total_mileage", if mileages.isEmpty then 0 else mileages.sum),
   ("avg_mileage", if mileages.isEmpty then 0 else mean mileages),
   ("mileage_variance", if mileages.isEmpty then 0 else popVar mileages),
   ("certificate_expiry_count", certIssues),
   ("branding_priority_sum", brandingScore),
   ("time_of_day", (time.1 : ℚ)),
   ("day_of_week", (time.2 : ℚ))]

/-! ## Data store (`data_store.py`) -/

/-- One persisted schedule file: its filename, its JSON content, and (for
stating recency properties) the time it was saved — the filesystem mtime.
Only `name` influences what the store's read paths do. -/
structure StoredFile (α : Type) where
  name : String
  content : α
  savedAt : ℚ
  deriving Repr, DecidableEq

/-- One insertion step of `sorted(files, reverse=True)`: place `x` before
the first strictly smaller name (stable for equal names). -/
def insertDesc {α : Type} (x : StoredFile α) :
    List (StoredFile α) → List (StoredFile α)
  | [] => [x]
  | y :: ys => if y.name < x.name then x :: y :: ys else y :: insertDesc x ys

/-- `sorted(self.data_dir.glob("*.json"), reverse=True)` — descending by
filename. -/
def sortedDesc {α : Type} (l : List (StoredFile α)) : List (StoredFile α) :=
  l.foldr insertDesc []

/-- Line 24 of `data_store.py`: `f"{schedule_id}_{timestamp}.json"`. -/
def scheduleFilename (scheduleId timestamp : String) : String :=
  scheduleId ++ "_" ++ timestamp ++ ".json"

/-- `ScheduleDataStore.load_schedules` (lines 38–54).  `files` is the set of
readable entries (a corrupt entry is skipped with a warning, hence simply
absent here).  Python's `if limit:` treats `0` like `None`. -/
def load_schedules {α : Type} (files : List (StoredFile α))
    (limit : Option ℕ) : List α :=
  let sorted := sortedDesc files
  let chosen := match limit with
    | some n => if n = 0 then sorted else sorted.take n
    | none => sorted
  chosen.map (fun f => f.content)

/-- `ScheduleDataStore.clear_old_schedules` (lines 74–82): the files that
remain in the directory afterwards. -/
def clear_old_schedules {α : Type} (files : List (StoredFile α))
    (keepCount : ℕ) : List (StoredFile α) :=
  (sortedDesc files).take keepCount

/-- Summing the second components after dividing each by `c` divides the
total by `c`. -/
lemma sum_map_snd_div (l : List (String × ℚ)) (c : ℚ) :
    ((l.map (fun p => (p.1, p.2 / c))).map Prod.snd).sum
      = (l.map Prod.snd).sum / c := by
  induction l with
  | nil => simp
  | cons x xs ih =>
      simp only [List.map_cons, List.sum_cons, ← List.map_map, ih, add_div]

/-- A variant whose `_get_model` returns `None` contributes no entry to the
fitted-model dictionary. -/
lemma trainLoop_skips_unavailable {μ ε : Type} (getModel : String → Option μ)
    (fitEval : String → μ → Except ε (μ × ℚ)) :
    ∀ (types : List String) (fitted : List (String × μ))
      (scores : List (String × ℚ)),
      trainLoop types getModel fitEval = .ok (fitted, scores) →
      ∀ n, getModel n = none → n ∉ fitted.map Prod.fst := by
  intro types
  induction types with
  | nil =>
      intro fitted scores h n hn
      simp only [trainLoop, Except.ok.injEq, Prod.mk.injEq] at h
      simp [← h.1]
  | cons name rest ih =>
      intro fitted scores h n hn
      simp only [trainLoop] at h
      cases hg : getModel name with
      | none =>
          rw [hg] at h
          exact ih fitted scores h n hn
      | some m =>
          rw [hg] at h
          dsimp only at h
          cases hf : fitEval name m with
          | error e => rw [hf] at h; simp at h
          | ok fs =>
              rw [hf] at h
              obtain ⟨f, s⟩ := fs
              cases hl : trainLoop rest getModel fitEval with
              | error e => rw [hl] at h; simp at h
              | ok ms =>
                  obtain ⟨ms, ss⟩ := ms
                  rw [hl] at h
                  simp only [Except.ok.injEq, Prod.mk.injEq] at h
                  rw [← h.1]
                  simp only [List.map_cons, List.mem_cons]
                  rintro (rfl | hmem)
                  · rw [hn] at hg; exact Option.noConfusion hg
                  · exact ih ms ss (by rw [hl]) n hn hmem

/-- When every variant is unavailable the loop finishes with empty model
and score dictionaries (and no error). -/
lemma trainLoop_all_unavailable {μ ε : Type} (getModel : String → Option μ)
    (fitEval : String → μ → Except ε (μ × ℚ))
    (h : ∀ n, getModel n = none) :
    ∀ types : List String, trainLoop types getModel fitEval = .ok ([], []) := by
  intro types
  induction types with
  | nil => rfl
  | cons name rest ih => simp [trainLoop, h name, ih]

end SelfTrain

namespace SelfTrain

/-- C1: `should_retrain()` is true iff never trained, or the elapsed-time gate
and the new-record-count gate both pass; it is false at the instant a train
completes (the code just set `last_trained := now`), and a new-record count
below the minimum keeps it false however much time has elapsed. -/
theorem should_retrain_spec (lastTrained : Option ℚ) (now : ℚ) (newSince : ℕ) :
    (should_retrain CONFIG lastTrained now newSince = true ↔
      (lastTrained = none ∨
        (∃ t, lastTrained = some t ∧
          (now - t) / 3600 ≥ CONFIG.RETRAIN_INTERVAL_HOURS ∧
          newSince ≥ CONFIG.MIN_SCHEDULES_FOR_RETRAIN))) ∧
    (should_retrain CONFIG (some now) now newSince = false) ∧
    (newSince < CONFIG.MIN_SCHEDULES_FOR_RETRAIN →
      ∀ t, should_retrain CONFIG (some t) now newSince = false) := by
  refine ⟨?_, ?_, ?_⟩
  · cases lastTrained with
    | none => simp [should_retrain]
    | some t =>
        by_cases hc : (now - t) / 3600 ≥ CONFIG.RETRAIN_INTERVAL_HOURS
        · by_cases hn : newSince ≥ CONFIG.MIN_SCHEDULES_FOR_RETRAIN
          · simp [should_retrain, hc, hn]
          · simp [should_retrain, hc, hn]
        · simp [should_retrain, hc]
  · have h0 : ¬ ((now - now) / 3600 ≥ CONFIG.RETRAIN_INTERVAL_HOURS) := by
      simp only [CONFIG, sub_self]
      norm_num
    simp only [should_retrain]
    rw [if_neg h0]
  · intro hlt t
    by_cases hc : (now - t) / 3600 ≥ CONFIG.RETRAIN_INTERVAL_HOURS
    · simp [should_retrain, hc, Nat.not_le.mpr hlt]
    · simp [should_retrain, hc]

/-- Witness for `should_retrain_spec` at a concrete input: never trained,
and a count below the minimum keeps a trained state untriggered. -/
theorem should_retrain_spec_witness :
    should_retrain CONFIG none 0 0 = true ∧
    should_retrain CONFIG (some 0) (1000000 : ℚ) 10 = false := by
  refine ⟨?_, ?_⟩
  · have h := (should_retrain_spec none 0 0).1
    exact h.mpr (Or.inl rfl)
  · exact (should_retrain_spec (some 0) (1000000 : ℚ) 10).2.2 (by decide) 0

/-- C2 (amended): the ensemble-weight mapping is empty iff ensembling is
disabled or fewer than two models trained; when the scores have a non-zero
total, a non-empty mapping sums exactly to 1 (weights may be negative when a
validation score is); with two or more models and a zero total score the
division by zero leaves the weights numerically undefined, not empty; and
every successful training run installs exactly this mapping, computed from
the run's score table. -/
theorem ensemble_weights_spec (useEnsemble : Bool)
    (scores : List (String × ℚ)) :
    (computeEnsembleWeights useEnsemble scores = some [] ↔
      ¬(useEnsemble = true ∧ 1 < scores.length)) ∧
    ((scores.map Prod.snd).sum ≠ 0 →
      ∀ w, computeEnsembleWeights useEnsemble scores = some w →
        w = [] ∨ ((w.map Prod.snd).sum = 1 ∧ w.length = scores.length)) ∧
    (useEnsemble = true → 1 < scores.length →
      (scores.map Prod.snd).sum = 0 →
      computeEnsembleWeights useEnsemble scores = none) ∧
    (∀ {μ ε : Type} (cfg : TrainCfg) (getModel : String → Option μ)
        (fitEval : String → μ → Except ε (μ × ℚ)) (st : TrainerState μ)
        (force : Bool) (now : ℚ) (numSchedules newSince numPrepared : ℕ)
        (ns : List String) (best : Option String)
        (w : Option (List (String × ℚ))) (st' : TrainerState μ),
      train cfg getModel fitEval st force now numSchedules newSince
          numPrepared = .ok (.trained ns best w, st') →
      st'.ensemble_weights = w ∧
        w = computeEnsembleWeights cfg.USE_ENSEMBLE st'.model_scores) := by
  refine ⟨?_, ?_, ?_, ?_⟩
  · cases hc : (useEnsemble && decide (1 < scores.length)) with
    | false =>
        have hn : ¬(useEnsemble = true ∧ 1 < scores.length) := by
          rintro ⟨h1, h2⟩
          rw [h1] at hc
          simp [h2] at hc
        simp only [computeEnsembleWeights]
        rw [if_neg (by simp [hc])]
        simp [hn]
    | true =>
        have hp : useEnsemble = true ∧ 1 < scores.length := by
          simpa using hc
        simp only [computeEnsembleWeights]
        rw [if_pos hc]
        by_cases ht : (scores.map Prod.snd).sum = 0
        · rw [if_pos ht]
          exact iff_of_false (by simp) (by intro h; exact h hp)
        · rw [if_neg ht]
          refine iff_of_false ?_ (by intro h; exact h hp)
          intro h
          simp only [Option.some.injEq, List.map_eq_nil_iff] at h
          rw [h] at hp
          simp at hp
  · intro hs w hw
    by_cases hc : (useEnsemble && decide (1 < scores.length)) = true
    · simp only [computeEnsembleWeights] at hw
      rw [if_pos hc, if_neg hs] at hw
      right
      rw [← Option.some.inj hw]
      refine ⟨?_, by simp⟩
      rw [sum_map_snd_div]
      exact div_self hs
    · simp only [computeEnsembleWeights] at hw
      rw [if_neg hc] at hw
      exact Or.inl (Option.some.inj hw).symm
  · intro hu hl ht
    simp only [computeEnsembleWeights]
    rw [if_pos (by simp [hu, hl]), if_pos ht]
  · intro μ ε cfg getModel fitEval st force now nS nN nP ns best w st' h
    simp only [train] at h
    split at h
    · simp at h
    · split at h
      · simp at h
      · split at h
        · simp at h
        · split at h
          · simp at h
          · rename_i models scores' heq
            simp only [Except.ok.injEq, Prod.mk.injEq,
              TrainResult.trained.injEq] at h
            obtain ⟨⟨hns, hbest, hw⟩, hst⟩ := h
            subst hst
            exact ⟨hw, hw.symm⟩

/-- Witness for `ensemble_weights_spec`: two models with scores 1 and 1 get
weights ½ and ½, which sum to 1. -/
theorem ensemble_weights_spec_witness :
    [("a", (1 : ℚ)/2), ("b", (1 : ℚ)/2)] = [] ∨
      ((([("a", (1 : ℚ)/2), ("b", (1 : ℚ)/2)]).map Prod.snd).sum = 1 ∧
        ([("a", (1 : ℚ)/2), ("b", (1 : ℚ)/2)]).length
          = ([("a", (1 : ℚ)), ("b", 1)] : List (String × ℚ)).length) :=
  (ensemble_weights_spec true [("a", 1), ("b", 1)]).2.1 (by norm_num)
    [("a", (1 : ℚ)/2), ("b", (1 : ℚ)/2)] (by norm_num [computeEnsembleWeights])

/-- C2 counterexample: a training run over two variants whose validation
scores are −1 and 3 installs ensemble weights −½ and 3/2 — a negative
weight, refuting "every weight is non-negative". -/
theorem train_weights_nonneg_counterexample :
    ((train { CONFIG with MODEL_TYPES := ["a", "b"] }
        (fun _ => some ())
        (fun n _ => if n = "a" then Except.ok ((), -1)
          else (Except.ok ((), 3) : Except Unit (Unit × ℚ)))
        ⟨[], [], some [], none, none, []⟩ true 0 100 0 1).map
        (fun p => p.2.ensemble_weights))
      = Except.ok (some [("a", -(1 : ℚ)/2), ("b", 3/2)]) ∧
    (-(1 : ℚ)/2 < 0) := by
  constructor
  · have h1 : trainLoop ["a", "b"] (fun _ => some ())
        (fun n (_ : Unit) => if n = "a" then Except.ok ((), -1)
          else (Except.ok ((), 3) : Except Unit (Unit × ℚ)))
        = .ok ([("a", ()), ("b", ())], [("a", -1), ("b", 3)]) := by
      simp [trainLoop]
    have h2 : ((([("a", (-1 : ℚ)), ("b", 3)]).map Prod.snd).sum) = 2 := by
      norm_num
    simp only [train, should_retrain, CONFIG]
    norm_num [h1, computeEnsembleWeights, h2, argmaxScore, Except.map]
  · norm_num

/-- C5 (amended): whenever the available-record count is below the
configured minimum for training, `train` leaves the Trainer State unchanged
and returns the structured "insufficient data" failure — except that with
`force=False` and a closed retrain gate it returns the earlier "retraining
not needed" failure instead (also without touching state). -/
theorem train_insufficient_data_spec {μ ε : Type} (cfg : TrainCfg)
    (getModel : String → Option μ)
    (fitEval : String → μ → Except ε (μ × ℚ)) (st : TrainerState μ)
    (force : Bool) (now : ℚ) (numSchedules newSince numPrepared : ℕ)
    (h : numSchedules < cfg.MIN_SCHEDULES_FOR_TRAINING) :
    train cfg getModel fitEval st force now numSchedules newSince
        numPrepared
      = .ok ((if force || should_retrain cfg st.last_trained now newSince
          then TrainResult.insufficientData cfg.MIN_SCHEDULES_FOR_TRAINING
            numSchedules
          else TrainResult.notNeeded), st) := by
  cases force with
  | false =>
      cases hr : should_retrain cfg st.last_trained now newSince with
      | false => simp [train, hr]
      | true => simp [train, hr, h]
  | true => simp [train, h]

/-- Witness for `train_insufficient_data_spec`: 40 records against the
default minimum of 100, never trained — "insufficient data", state kept. -/
theorem train_insufficient_data_spec_witness :
    train CONFIG (fun _ => (none : Option Unit))
        (fun _ _ => (Except.error () : Except Unit (Unit × ℚ)))
        ⟨[], [], some [], none, none, []⟩ false 0 40 0 0
      = .ok ((if false || should_retrain CONFIG none 0 0
          then TrainResult.insufficientData CONFIG.MIN_SCHEDULES_FOR_TRAINING
            40
          else TrainResult.notNeeded), ⟨[], [], some [], none, none, []⟩) :=
  train_insufficient_data_spec CONFIG _ _ _ false 0 40 0 0 (by decide)

/-- C5 counterexample: with `force=False` and a trainer that just trained
(closed retrain gate), 40 records < minimum 100 yields the "retraining not
needed" result, not the claimed "insufficient data" result. -/
theorem train_insufficient_data_counterexample :
    ((train CONFIG (fun _ => (none : Option Unit))
        (fun _ _ => (Except.error () : Except Unit (Unit × ℚ)))
        ⟨[], [], some [], none, some 0, []⟩ false 0 40 0 0).map
        (fun p => p.1))
      = Except.ok TrainResult.notNeeded ∧
    40 < CONFIG.MIN_SCHEDULES_FOR_TRAINING ∧
    TrainResult.notNeeded
      ≠ TrainResult.insufficientData CONFIG.MIN_SCHEDULES_FOR_TRAINING 40 := by
  refine ⟨?_, by decide, by decide⟩
  have hr : should_retrain CONFIG (some 0) 0 0 = false := by
    simp only [should_retrain, CONFIG]
    norm_num
  simp [train, hr, Except.map]

/-- C6 (amended): an unavailable variant is skipped and contributes no
model; but a variant whose fit fails aborts the whole run with the
propagated error (there is no per-variant try/except); and when *all*
variants are unavailable the run completes with `success=True` and an empty
model list rather than reporting a failure. -/
theorem train_model_failure_spec {μ ε : Type} (getModel : String → Option μ)
    (fitEval : String → μ → Except ε (μ × ℚ)) :
    (∀ (types : List String) (fitted : List (String × μ))
        (scores : List (String × ℚ)),
      trainLoop types getModel fitEval = .ok (fitted, scores) →
      ∀ n, getModel n = none → n ∉ fitted.map Prod.fst) ∧
    (∀ (cfg : TrainCfg) (st : TrainerState μ) (force : Bool) (now : ℚ)
        (numSchedules newSince numPrepared : ℕ) (e : ε),
      trainLoop cfg.MODEL_TYPES getModel fitEval = .error e →
      (force = true ∨ should_retrain cfg st.last_trained now newSince = true) →
      ¬(numSchedules < cfg.MIN_SCHEDULES_FOR_TRAINING) →
      numPrepared ≠ 0 →
      train cfg getModel fitEval st force now numSchedules newSince
        numPrepared = .error e) ∧
    ((∀ n, getModel n = none) →
      ∀ (cfg : TrainCfg) (st : TrainerState μ) (force : Bool) (now : ℚ)
        (numSchedules newSince numPrepared : ℕ),
      (force = true ∨ should_retrain cfg st.last_trained now newSince = true) →
      ¬(numSchedules < cfg.MIN_SCHEDULES_FOR_TRAINING) →
      numPrepared ≠ 0 →
      (train cfg getModel fitEval st force now numSchedules newSince
          numPrepared).map (fun p => (p.1, TrainResult.success p.1))
        = .ok (.trained [] st.best_model_name (some []), true)) := by
  refine ⟨trainLoop_skips_unavailable getModel fitEval, ?_, ?_⟩
  · intro cfg st force now nS nN nP e hl hgate hs hp
    have hgate' : (!force && !(should_retrain cfg st.last_trained now nN))
        = false := by
      rcases hgate with hf | hr
      · simp [hf]
      · simp [hr]
    simp [train, hgate', hs, hp, hl]
  · intro hnone cfg st force now nS nN nP hgate hs hp
    have hgate' : (!force && !(should_retrain cfg st.last_trained now nN))
        = false := by
      rcases hgate with hf | hr
      · simp [hf]
      · simp [hr]
    have hl := trainLoop_all_unavailable getModel fitEval hnone cfg.MODEL_TYPES
    simp only [train, hgate', Bool.false_eq_true, if_false, if_neg hs,
      if_neg hp, hl]
    simp [computeEnsembleWeights, argmaxScore, TrainResult.success, Except.map]

/-- Witness for `train_model_failure_spec`: with a single configured variant
whose fit raises, `train` propagates the error uncaught. -/
theorem train_model_failure_spec_witness :
    train { CONFIG with MODEL_TYPES := ["gradient_boosting"] }
        (fun _ => some ())
        (fun _ _ => (Except.error "fit failed" : Except String (Unit × ℚ)))
        ⟨[], [], some [], none, none, []⟩ true 0 100 0 1
      = .error "fit failed" :=
  (train_model_failure_spec (fun _ => some ())
      (fun _ _ => (Except.error "fit failed" : Except String (Unit × ℚ)))).2.1
    { CONFIG with MODEL_TYPES := ["gradient_boosting"] }
    ⟨[], [], some [], none, none, []⟩ true 0 100 0 1 "fit failed" rfl
    (Or.inl rfl) (by decide) (by decide)

/-- C6 counterexample: every configured variant unavailable, yet `train`
returns `success=True` with an empty model list instead of a failure with
an explicit error. -/
theorem train_all_unavailable_counterexample :
    ((train CONFIG (fun _ => (none : Option Unit))
        (fun _ _ => (Except.error "fit failed" : Except String (Unit × ℚ)))
        ⟨[], [], some [], none, none, []⟩ false 0 100 0 1).map
        (fun p => (p.1, TrainResult.success p.1)))
      = Except.ok (TrainResult.trained [] none (some []), true) := by
  rfl

/-- C3 (amended): with models loaded, ensemble-mode confidence always lies
in [½, 1]; single-model confidence equals `min 1 (0.8 + estimate/100·0.2)`,
is always ≤ 1, and is ≥ 0 exactly when the estimate is ≥ −400 (so the
claimed lower bound 0 holds only for estimates ≥ −400). -/
theorem predict_confidence_bounds (models : List (String × (List ℚ → ℚ)))
    (weights : List (String × ℚ)) (best : Option String)
    (stdDev : List ℚ → ℚ) (features : List (String × ℚ))
    (hm : models ≠ []) :
    (weights ≠ [] →
      1/2 ≤ (predict CONFIG true models weights best stdDev features).2 ∧
        (predict CONFIG true models weights best stdDev features).2 ≤ 1) ∧
    ((predict CONFIG true models [] best stdDev features).2
        = min 1 (4/5 +
            (predict CONFIG true models [] best stdDev features).1
              / 100 * (1/5)) ∧
      (predict CONFIG true models [] best stdDev features).2 ≤ 1 ∧
      (-400 ≤ (predict CONFIG true models [] best stdDev features).1 →
        0 ≤ (predict CONFIG true models [] best stdDev features).2)) := by
  cases models with
  | nil => exact absurd rfl hm
  | cons m0 rest =>
      constructor
      · intro hw
        cases weights with
        | nil => exact absurd rfl hw
        | cons w0 ws =>
            constructor
            · exact le_max_left _ _
            · exact max_le (by norm_num) (min_le_left _ _)
      · refine ⟨rfl, min_le_left _ _, ?_⟩
        intro hp
        show 0 ≤ min 1 (4/5 +
          (predict CONFIG true (m0 :: rest) [] best stdDev features).1
            / 100 * (1/5))
        refine le_min (by norm_num) ?_
        linarith [hp]

/-- Witness for `predict_confidence_bounds`: one model predicting 50 with
ensemble weights present — the ensemble confidence is within [½, 1]. -/
theorem predict_confidence_bounds_witness :
    1/2 ≤ (predict CONFIG true [("m", fun _ => 50)] [("m", 1)] (some "m")
        (fun _ => 0) []).2 ∧
      (predict CONFIG true [("m", fun _ => 50)] [("m", 1)] (some "m")
        (fun _ => 0) []).2 ≤ 1 :=
  (predict_confidence_bounds [("m", fun _ => 50)] [("m", 1)] (some "m")
      (fun _ => 0) [] (by simp)).1 (by simp)

/-- C3 counterexample: a single fitted model whose estimate is −500 drives
the single-model confidence to −1/5, outside the claimed [0, 1]. -/
theorem predict_confidence_counterexample :
    (predict CONFIG true [("m", fun _ => -500)] [] (some "m")
        (fun _ => 0) []).2 = -(1 : ℚ)/5 ∧ (-(1 : ℚ)/5 < 0) := by
  constructor
  · show min 1 (4/5 + (-500 : ℚ)/100 * (1/5)) = -(1 : ℚ)/5
    rw [show (4/5 + (-500 : ℚ)/100 * (1/5)) = -(1 : ℚ)/5 by norm_num]
    exact min_eq_right (by norm_num)
  · norm_num

/-- C4 (amended): the router's decision table as implemented — a caller
passing `ml_available=False` always gets the "ML model not available"
reason, even with hybrid mode disabled; hybrid disabled gives fallback with
confidence 0 and the "hybrid disabled" reason only when `ml_available`;
with no models loaded the fallback reason cites confidence 0 below the
threshold (there is no dedicated "model unavailable" reason); otherwise
useMl = (confidence ≥ threshold) AND mlAvailable, and a below-threshold
confidence yields method "optimization" with a reason citing the numeric
confidence and threshold. -/
theorem get_schedule_recommendation_spec {ρ : Type} (cfg : TrainCfg)
    (models : List (String × (List ℚ → ℚ))) (weights : List (String × ℚ))
    (best : Option String) (stdDev : List ℚ → ℚ) (req : ScheduleRequest ρ)
    (mlAvailable : Bool) (hour day : ℚ) (r : Recommendation)
    (hr : r = get_schedule_recommendation cfg models weights best stdDev req
        mlAvailable hour day) :
    (mlAvailable = false →
      r.use_ml = false ∧ r.method = "optimization" ∧
        r.reason = .mlNotAvailable) ∧
    (cfg.USE_HYBRID = false →
      r.use_ml = false ∧ r.confidence = 0 ∧ r.method = "optimization" ∧
        (mlAvailable = true → r.reason = .hybridDisabled)) ∧
    (cfg.USE_HYBRID = true → models = [] →
      r.use_ml = false ∧ r.confidence = 0 ∧ r.method = "optimization" ∧
        (mlAvailable = true →
          r.reason = .belowThreshold 0 cfg.ML_CONFIDENCE_THRESHOLD)) ∧
    (cfg.USE_HYBRID = true → models ≠ [] →
      r.use_ml = (decide ((predict cfg true models weights best stdDev
            (buildFeatures req hour day)).2 ≥ cfg.ML_CONFIDENCE_THRESHOLD)
          && mlAvailable) ∧
      r.confidence = (predict cfg true models weights best stdDev
          (buildFeatures req hour day)).2 ∧
      (mlAvailable = true →
        (predict cfg true models weights best stdDev
            (buildFeatures req hour day)).2 < cfg.ML_CONFIDENCE_THRESHOLD →
        r.use_ml = false ∧ r.method = "optimization" ∧
          r.reason = .belowThreshold
            (predict cfg true models weights best stdDev
              (buildFeatures req hour day)).2
            cfg.ML_CONFIDENCE_THRESHOLD)) := by
  subst hr
  refine ⟨?_, ?_, ?_, ?_⟩
  · intro hml
    subst hml
    simp [get_schedule_recommendation, get_reason]
  · intro hh
    simp [get_schedule_recommendation, should_use_ml, get_reason, hh]
  · intro hh hm
    subst hm
    simp [get_schedule_recommendation, should_use_ml, get_reason, hh]
  · intro hh hm
    cases models with
    | nil => exact absurd rfl hm
    | cons m0 rest =>
        refine ⟨?_, ?_, ?_⟩
        · simp [get_schedule_recommendation, should_use_ml, hh]
        · simp [get_schedule_recommendation, should_use_ml, hh]
        · intro hml hconf
          have hd : decide ((predict cfg true (m0 :: rest) weights best stdDev
              (buildFeatures req hour day)).2 ≥ cfg.ML_CONFIDENCE_THRESHOLD)
              = false := by
            simp [not_le.mpr hconf]
          simp [get_schedule_recommendation, should_use_ml, get_reason, hh,
            hml, hd, not_le.mpr hconf]

/-- Witness for `get_schedule_recommendation_spec`: one model estimating
−100 gives confidence 3/5 = 0.60 < threshold 3/4 = 0.75 with hybrid enabled
and the model available — fallback to optimization with a reason citing
0.60 < 0.75. -/
theorem get_schedule_recommendation_spec_witness :
    (get_schedule_recommendation CONFIG [("m", fun _ => -100)] [] none
        (fun _ => 0) (⟨some 25, ()⟩ : ScheduleRequest Unit) true 10
        2).use_ml = false ∧
    (get_schedule_recommendation CONFIG [("m", fun _ => -100)] [] none
        (fun _ => 0) (⟨some 25, ()⟩ : ScheduleRequest Unit) true 10
        2).method = "optimization" ∧
    (get_schedule_recommendation CONFIG [("m", fun _ => -100)] [] none
        (fun _ => 0) (⟨some 25, ()⟩ : ScheduleRequest Unit) true 10
        2).reason = .belowThreshold
          ((predict CONFIG true [("m", fun _ => -100)] [] none (fun _ => 0)
            (buildFeatures (⟨some 25, ()⟩ : ScheduleRequest Unit) 10 2)).2)
          CONFIG.ML_CONFIDENCE_THRESHOLD :=
  ((get_schedule_recommendation_spec CONFIG [("m", fun _ => -100)] [] none
      (fun _ => 0) (⟨some 25, ()⟩ : ScheduleRequest Unit) true 10 2 _
      rfl).2.2.2 rfl (by simp)).2.2 rfl
    (by
      show min 1 (4/5 + (-100 : ℚ)/100 * (1/5))
        < CONFIG.ML_CONFIDENCE_THRESHOLD
      rw [show (4/5 + (-100 : ℚ)/100 * (1/5)) = 3/5 by norm_num,
        min_eq_right (by norm_num : (3 : ℚ)/5 ≤ 1)]
      show (3 : ℚ)/5 < 3/4
      norm_num)

/-- C4 counterexample: hybrid mode disabled AND `ml_available=False` — the
reason is "ML model not available", not a reason stating hybrid is
disabled (`_get_reason` tests `ml_available` first). -/
theorem recommendation_reason_counterexample :
    (get_schedule_recommendation { CONFIG with USE_HYBRID := false }
        [] [] none (fun _ => 0) (⟨none, ()⟩ : ScheduleRequest Unit)
        false 12 0).reason = Reason.mlNotAvailable ∧
    Reason.mlNotAvailable ≠ Reason.hybridDisabled := by
  exact ⟨rfl, by simp⟩

/-- C7: the loader installs any readable blob unconditionally — here a blob
whose stored feature list `["x"]` differs from the configured feature list
is still installed (returns `True` and replaces the models), with no
feature-identity check anywhere in `load_model`. -/
theorem load_model_no_feature_check :
    (load_model (some (⟨[("stale", ())], some [], some "stale", some 0,
        ["x"]⟩ : ModelBlob Unit)) ⟨[], [], some [], none, none, []⟩)
      = (true, ⟨[("stale", ())], [], some [], some "stale", some 0, []⟩) ∧
    (["x"] ≠ CONFIG.FEATURES) := by
  exact ⟨rfl, by simp [CONFIG, defaultFeatures]⟩

/-- C10: the prediction input built by the router is exactly
`[num_trains (default 25), 0, 0, 0, 0, 0, 0, 0, hour, day]` in the
configured feature order — every feature other than `num_trains`,
`time_of_day`, `day_of_week` is filled with 0 — and two requests with the
same `num_trains` field receive identical recommendations regardless of any
other request content. -/
theorem recommendation_request_dependence {ρ₁ ρ₂ : Type} (cfg : TrainCfg)
    (models : List (String × (List ℚ → ℚ))) (weights : List (String × ℚ))
    (best : Option String) (stdDev : List ℚ → ℚ)
    (r1 : ScheduleRequest ρ₁) (r2 : ScheduleRequest ρ₂) (mlAvailable : Bool)
    (hour day : ℚ) :
    featureVector CONFIG.FEATURES (buildFeatures r1 hour day)
      = [r1.num_trains.getD 25, 0, 0, 0, 0, 0, 0, 0, hour, day] ∧
    (r1.num_trains = r2.num_trains →
      get_schedule_recommendation cfg models weights best stdDev r1
          mlAvailable hour day
        = get_schedule_recommendation cfg models weights best stdDev r2
            mlAvailable hour day) := by
  constructor
  · rfl
  · intro h
    unfold get_schedule_recommendation
    rw [show buildFeatures r1 hour day = buildFeatures r2 hour day from by
      simp [buildFeatures, h]]

/-- Witness for `recommendation_request_dependence`: two requests differing
in everything but `num_trains` get the same recommendation, and the feature
vector is as stated. -/
theorem recommendation_request_dependence_witness :
    featureVector CONFIG.FEATURES
        (buildFeatures (⟨some 30, 7⟩ : ScheduleRequest ℕ) 10 2)
      = [(30 : ℚ), 0, 0, 0, 0, 0, 0, 0, 10, 2] ∧
    get_schedule_recommendation CONFIG [] [] none (fun _ => 0)
        (⟨some 30, 7⟩ : ScheduleRequest ℕ) true 10 2
      = get_schedule_recommendation CONFIG [] [] none (fun _ => 0)
          (⟨some 30, 99⟩ : ScheduleRequest ℕ) true 10 2 :=
  ⟨(recommendation_request_dependence CONFIG [] [] none (fun _ => 0)
      (⟨some 30, 7⟩ : ScheduleRequest ℕ) (⟨some 30, 99⟩ : ScheduleRequest ℕ)
      true 10 2).1,
    (recommendation_request_dependence CONFIG [] [] none (fun _ => 0)
      (⟨some 30, 7⟩ : ScheduleRequest ℕ) (⟨some 30, 99⟩ : ScheduleRequest ℕ)
      true 10 2).2 rfl⟩

/-- C8: for every schedule record and every parser behaviour, `extract`
returns a total feature dictionary containing every configured feature key;
a timestamp parse failure defaults hour-of-day to 12 and day-of-week to 0;
and missing source data yields the 0 defaults (shown for the all-missing
record: empty trainset list). -/
theorem extract_from_schedule_total_spec (parse : String → Option (ℕ × ℕ))
    (s : Schedule) :
    (∀ f ∈ CONFIG.FEATURES,
      ((extract_from_schedule parse s).lookup f).isSome = true) ∧
    (parse ((s.generated_at.getD "").replace "+05:30" "") = none →
      (extract_from_schedule parse s).lookup "time_of_day" = some 12 ∧
      (extract_from_schedule parse s).lookup "day_of_week" = some 0) ∧
    (s.trainsets = [] →
      (extract_from_schedule parse s).lookup "num_trains" = some 0 ∧
      (extract_from_schedule parse s).lookup "num_available" = some 0 ∧
      (extract_from_schedule parse s).lookup "avg_readiness_score"
        = some 0 ∧
      (extract_from_schedule parse s).lookup "total_mileage" = some 0 ∧
      (extract_from_schedule parse s).lookup "mileage_variance" = some 0) := by
  refine ⟨?_, ?_, ?_⟩
  · intro f hf
    simp only [CONFIG, defaultFeatures] at hf
    fin_cases hf <;> simp [extract_from_schedule, List.lookup]
  · intro h
    constructor <;> simp [extract_from_schedule, h, List.lookup]
  · intro h
    refine ⟨?_, ?_, ?_, ?_, ?_⟩ <;>
      simp [extract_from_schedule, h, List.lookup]

/-- Witness for `extract_from_schedule_total_spec`: the empty record with a
failing parser — every key present, time defaults 12 and 0, numeric
defaults 0. -/
theorem extract_from_schedule_total_spec_witness :
    ((extract_from_schedule (fun _ => none) ⟨[], none⟩).lookup
        "num_trains").isSome = true ∧
    (extract_from_schedule (fun _ => none) ⟨[], none⟩).lookup "time_of_day"
      = some 12 ∧
    (extract_from_schedule (fun _ => none) ⟨[], none⟩).lookup "day_of_week"
      = some 0 ∧
    (extract_from_schedule (fun _ => none) ⟨[], none⟩).lookup
        "avg_readiness_score" = some 0 :=
  ⟨(extract_from_schedule_total_spec (fun _ => none) ⟨[], none⟩).1
      "num_trains" (by simp [CONFIG, defaultFeatures]),
    ((extract_from_schedule_total_spec (fun _ => none) ⟨[], none⟩).2.1
      rfl).1,
    ((extract_from_schedule_total_spec (fun _ => none) ⟨[], none⟩).2.1
      rfl).2,
    ((extract_from_schedule_total_spec (fun _ => none) ⟨[], none⟩).2.2
      rfl).2.2.1⟩

/-- C9: the store orders by filename (`schedule_id` prefix first), not by
save time.  Concretely: schedule id "b" saved at time 1, id "a" saved later
at time 2 — `load_schedules` returns the older "B" content first, and
`clear_old_schedules(keep_count=1)` keeps the older file and deletes the
most recently saved one, contradicting "keep only the most recent". -/
theorem data_store_recency_violation :
    ((⟨scheduleFilename "b" "20240101_000000", "B", 1⟩ :
        StoredFile String).savedAt
      < (⟨scheduleFilename "a" "20240102_000000", "A", 2⟩ :
        StoredFile String).savedAt) ∧
    load_schedules
        [⟨scheduleFilename "b" "20240101_000000", "B", 1⟩,
         ⟨scheduleFilename "a" "20240102_000000", "A", 2⟩] none
      = ["B", "A"] ∧
    clear_old_schedules
        [⟨scheduleFilename "b" "20240101_000000", "B", 1⟩,
         ⟨scheduleFilename "a" "20240102_000000", "A", 2⟩] 1
      = [⟨scheduleFilename "b" "20240101_000000", "B", 1⟩] ∧
    (⟨scheduleFilename "a" "20240102_000000", "A", 2⟩ : StoredFile String)
      ∉ clear_old_schedules
        [⟨scheduleFilename "b" "20240101_000000", "B", 1⟩,
         ⟨scheduleFilename "a" "20240102_000000", "A", 2⟩] 1 := by
  have hab : (scheduleFilename "a" "20240102_000000")
      < scheduleFilename "b" "20240101_000000" := by
    simp only [scheduleFilename]
    simp
    decide
  refine ⟨by norm_num, ?_, ?_, ?_⟩
  · simp [load_schedules, sortedDesc, insertDesc, hab]
  · simp [clear_old_schedules, sortedDesc, insertDesc, hab]
  · simp only [clear_old_schedules, sortedDesc, insertDesc, List.foldr]
    rw [if_pos hab]
    simp only [List.take, List.mem_singleton]
    intro h
    have := congrArg StoredFile.content h
    simp at this

end SelfTrain
